import Mathlib

/-!
Shallow embedding of the h2alagut transport adapter (src/adapter.ts,
src/fetchAdapter.ts, src/types.ts) and proofs about its
session-establishment and request-execution behaviour.

Conventions: JavaScript `Record<string, string>` objects are embedded as
association lists `List (String × String)`; object-spread duplicate-key
semantics ("last assignment wins") is captured by `objLookup`, which
scans the entry list from the right.  Machine concerns that the claims
depend on (JS truthiness, `Number` coercion on the value shapes reachable
here, `String.prototype.split`, base64, UTF-8 encode/decode with
replacement) are given executable definitions below.
-/

namespace H2Alagut

/-- The two session variants produced by `createHttp2Session`
(adapter.ts:22-61): an HTTP/2 client session on ALPN "h2", otherwise an
HTTP/1.1 `ClientRequest` fallback. -/
inductive ClientKind where
  | h2session
  | clientRequest
  deriving DecidableEq, Repr

/-- Embeds the runtime test `typeof client.request === "function"`
(adapter.ts:63-67): the http2 `ClientHttp2Session` object has a `request`
method, while the HTTP/1.1 `ClientRequest` does not. -/
def hasRequestMethod : ClientKind → Bool
  | .h2session => true
  | .clientRequest => false

/-- isHttp2Session (adapter.ts:63-67). -/
def isHttp2Session (c : ClientKind) : Bool := hasRequestMethod c

/-- The `secureConnect` handler of `createHttp2Session`
(adapter.ts:36-53): if the negotiated ALPN protocol is "h2" it resolves
with an HTTP/2 session, otherwise (any other value, or none) it resolves
with an HTTPS `ClientRequest`; the handler contains no rejecting branch,
so the promise is never rejected on account of the ALPN outcome. -/
def secureConnectResult (alpn : Option String) : Except String ClientKind :=
  if alpn = some "h2" then .ok .h2session else .ok .clientRequest

/-- The dispatch performed by `h2Request` (adapter.ts:106, 231): the
pseudo-header request style is used exactly when `isHttp2Session` holds
of the client produced by session establishment. -/
def usesPseudoHeaders (c : ClientKind) : Bool := isHttp2Session c

/-- Parsed target URL fields, as read by `h2Request` from `new URL(url)`
(adapter.ts:90, 107-121).  `protocol` retains the trailing colon as in
the WHATWG URL API. -/
structure TargetURL where
  pathname : String
  search : String
  protocol : String
  host : String
  hostname : String
  port : String
  deriving DecidableEq, Repr

/-- JS `s.slice(0, -1)`: drop the final character (adapter.ts:110). -/
def sliceDropLast (s : String) : String := String.mk s.toList.dropLast

/-- The four computed pseudo-header entries, in the order the object
literal of adapter.ts:116-121 assigns them. -/
def computedPseudo (method : String) (u : TargetURL) : List (String × String) :=
  [(":method", method),
   (":path", u.pathname ++ u.search),
   (":scheme", sliceDropLast u.protocol),
   (":authority", u.host)]

/-- The header object passed to `safeClient.request` (adapter.ts:116-122):
the object literal assigns the four pseudo-headers first and then spreads
the caller's `headers`, so later (caller) assignments to the same key
overwrite the earlier pseudo-header assignment. -/
def h2HeaderObject (method : String) (u : TargetURL)
    (headers : List (String × String)) : List (String × String) :=
  computedPseudo method u ++ headers

/-- Lookup in a JS object built by successive assignments: the value of a
key is the value of the last assignment to it. -/
def objLookup (entries : List (String × String)) (k : String) : Option String :=
  (entries.reverse.find? (fun e => e.1 = k)).map (·.2)

/-- Request bodies as `h2Request` receives them (adapter.ts:85):
`Buffer | string | undefined`.  Byte buffers are lists of byte values. -/
inductive JsBody where
  | undef
  | str (s : String)
  | buf (bytes : List Nat)
  deriving DecidableEq, Repr

/-- JS truthiness of a `Buffer | string | undefined` value: `undefined`
and the empty string are falsy; every object (any Buffer, even empty) is
truthy. -/
def jsTruthyBody : JsBody → Bool
  | .undef => false
  | .str s => s ≠ ""
  | .buf _ => true

/-- Frames written on the HTTP/2 stream by the send step. -/
inductive Frame where
  | data (payload : JsBody)
  | endStream
  deriving DecidableEq, Repr

/-- The H2-path send step (adapter.ts:124-127): `if (body) req.write(body);
req.end()` — a data write happens only when the body is truthy, then the
stream is half-closed. -/
def h2SendFrames (body : JsBody) : List Frame :=
  (if jsTruthyBody body then [Frame.data body] else []) ++ [Frame.endStream]

/-- The request actually constructed on the HTTP/1.1 fallback path.
`createHttp2Session` builds it with `https.request({host, port,
createConnection})` (adapter.ts:45-49), passing no method, no path and no
caller headers, so Node defaults the method to "GET", the path to "/"
and the header map to the empty caller map; `h2Request`'s HTTP/1.1
branch (adapter.ts:231-235) only calls `req.end()`, writing no body.
The caller's method, URL path, headers and body are unused. -/
structure WireRequest where
  method : String
  path : String
  headers : List (String × String)
  bodyWritten : Option JsBody
  ended : Bool
  deriving DecidableEq, Repr

/-- HTTP/1.1 fallback wire request as a function of the caller's inputs
(adapter.ts:45-49 together with adapter.ts:231-235). -/
def http1FallbackWire (_method : String) (_u : TargetURL)
    (_headers : List (String × String)) (_body : JsBody) : WireRequest :=
  { method := "GET"
    path := "/"
    headers := []
    bodyWritten := none
    ended := true }

/-- Close-discipline state of the session/request object owned by one
call to `h2Request`. -/
structure CloseState where
  closeCalls : Nat
  closed : Bool
  deriving DecidableEq, Repr

/-- One occurrence of the guarded close site `if (client &&
isHttp2Session(client)) client.close()` that every terminal handler of
`h2Request` executes (adapter.ts:155-157, 165-167, 211-213, 226-228 on
the H2 branch; 265-267, 274-276, 302-304, 317-319 on the HTTP/1.1
branch).  `session.close()` on an already-closed session is a no-op, so
`closed` simply stays true; `closeCalls` counts invocations. -/
def guardedClose (c : ClientKind) (st : CloseState) : CloseState :=
  if isHttp2Session c then { closeCalls := st.closeCalls + 1, closed := true }
  else st

/-- The ways a request terminates, per the handlers installed by
`h2Request`. -/
inductive Exit where
  | success
  | transportError
  | decompressionError
  | abort
  deriving DecidableEq, Repr

/-- Close invocations executed on each exit path, transcribed from the
handlers of `h2Request`: the `end` handler closes once, both on
decompression failure and on success (adapter.ts:140-208 / 250-299); the
`error` handler closes once (adapter.ts:210-215 / 301-306); the abort
listener closes and also destroys the request with an error
(adapter.ts:223-230 / 314-321), and destroying with an error fires the
`error` handler, which closes again. -/
def exitCloseScript (c : ClientKind) (e : Exit) (st : CloseState) : CloseState :=
  match e with
  | .success => guardedClose c st
  | .decompressionError => guardedClose c st
  | .transportError => guardedClose c st
  | .abort => guardedClose c (guardedClose c st)

/-- Initial state: one freshly established session, never closed. -/
def initialCloseState : CloseState := { closeCalls := 0, closed := false }

/-- Splitting a character list on every occurrence of a separator
character; embeds JS `auth.split(":")` (adapter.ts:359) for the
single-character separator used there.  As in JS, the empty string
yields one empty component and a lone separator yields two. -/
def splitOnChar (sep : Char) : List Char → List (List Char)
  | [] => [[]]
  | c :: cs =>
    let r := splitOnChar sep cs
    if c = sep then [] :: r
    else
      match r with
      | [] => [[c]]
      | h :: t => (c :: h) :: t

/-- JS `auth.split(":")` (adapter.ts:359). -/
def jsSplitColon (s : String) : List String :=
  (splitOnChar ':' s.toList).map (fun l => String.mk l)

/-- UTF-8 encoding of one code point (the byte production of
`Buffer.from(string)` / `TextEncoder().encode`, both platform builtins
producing standard UTF-8). -/
def utf8Bytes (c : Char) : List Nat :=
  let n := c.toNat
  if n < 0x80 then [n]
  else if n < 0x800 then [0xC0 + n / 64, 0x80 + n % 64]
  else if n < 0x10000 then
    [0xE0 + n / 4096, 0x80 + (n / 64) % 64, 0x80 + n % 64]
  else
    [0xF0 + n / 262144, 0x80 + (n / 4096) % 64, 0x80 + (n / 64) % 64,
     0x80 + n % 64]

/-- UTF-8 bytes of a string, as `Buffer.from(s)` produces
(adapter.ts:370-372) and as `TextEncoder().encode(s)` produces
(fetchAdapter.ts:104). -/
def strUtf8 (s : String) : List Nat := s.toList.flatMap utf8Bytes

/-- The RFC 4648 base64 alphabet used by `Buffer.toString("base64")`. -/
def base64Alphabet : List Char :=
  "ABCDEFGHIJKLMNOPQRSTUVWXYZabcdefghijklmnopqrstuvwxyz0123456789+/".toList

/-- Character of one 6-bit group. -/
def b64c (n : Nat) : Char := base64Alphabet.getD n 'A'

/-- Base64 encoding with padding of a byte list, as
`Buffer.toString("base64")` produces (adapter.ts:370-372). -/
def base64Encode : List Nat → String
  | [] => ""
  | [a] =>
    String.mk [b64c (a / 4), b64c (a % 4 * 16), '=', '=']
  | [a, b] =>
    String.mk [b64c (a / 4), b64c (a % 4 * 16 + b / 16), b64c (b % 16 * 4), '=']
  | a :: b :: c :: rest =>
    String.mk [b64c (a / 4), b64c (a % 4 * 16 + b / 16),
               b64c (b % 16 * 4 + c / 64), b64c (c % 64)] ++ base64Encode rest

/-- The proxy-auth handling of `getSocket` (adapter.ts:358-376): split
`auth` on every ":", destructure the first two components (a missing
second component is `undefined`, hence falsy, like an empty one), fail
when either is falsy, and otherwise attach a header whose value base64s
only those first two components joined by a ":". -/
def proxyAuthHeader (auth : String) : Except String String :=
  let parts := jsSplitColon auth
  match parts[0]?, parts[1]? with
  | some u, some p =>
    if u = "" ∨ p = "" then
      .error "Invalid proxy authentication format. Expected \"username:password\""
    else
      .ok ("Basic " ++ base64Encode (strUtf8 (u ++ ":" ++ p)))
  | _, _ =>
    .error "Invalid proxy authentication format. Expected \"username:password\""

/-- Reference definition following the spec's words for C7: split the
auth string on the FIRST ":" only, yielding the part before it and the
whole remainder after it (so a password may itself contain ":"). -/
def specFirstColonSplit (auth : String) : Option (String × String) :=
  match splitOnChar ':' auth.toList with
  | [] => none
  | [_] => none
  | u :: r :: rest =>
    some (String.mk u, String.mk (List.intercalate [':'] (r :: rest)))

/-- Header values as they occur in an incoming header map:
`string | number` (Node reports `:status` as a number; test doubles may
use strings). -/
inductive HVal where
  | str (s : String)
  | num (n : Int)
  deriving DecidableEq, Repr

/-- JS numbers restricted to the shapes status resolution can produce:
an integer or NaN. -/
inductive JSNum where
  | nan
  | int (n : Int)
  deriving DecidableEq, Repr

/-- Value of a nonempty all-digit character list. -/
def decDigitsVal (cs : List Char) : Option Nat :=
  if cs ≠ [] ∧ cs.all (·.isDigit) then
    some (cs.foldl (fun n c => n * 10 + (c.toNat - 48)) 0)
  else none

/-- Modelled JS `Number(string)` coercion on the string shapes reachable
in status resolution: the empty string coerces to 0, an optionally
"-"-signed decimal-digit string to its integer value, and any other
string (for example "abc") to NaN.  (Whitespace trimming, fractional,
exponent and hexadecimal forms never arise for status values and are
not modelled.) -/
def jsNumberOfString (s : String) : JSNum :=
  if s = "" then .int 0
  else
    match s.toList with
    | '-' :: rest =>
      match decDigitsVal rest with
      | some n => .int (-(n : Int))
      | none => .nan
    | cs =>
      match decDigitsVal cs with
      | some n => .int n
      | none => .nan

/-- JS `Number(x)` on a header value (adapter.ts:187). -/
def jsNumber : HVal → JSNum
  | .num n => .int n
  | .str s => jsNumberOfString s

/-- Property lookup in a response-header object (no duplicate keys). -/
def hLookup (h : List (String × HVal)) (k : String) : Option HVal :=
  (h.find? (fun e => e.1 = k)).map (·.2)

/-- JS truthiness of `headers[k]`: an absent property (`undefined`), the
empty string and the number 0 are falsy. -/
def jsTruthyHVal : Option HVal → Bool
  | none => false
  | some (.str s) => s ≠ ""
  | some (.num n) => n ≠ 0

/-- True when the header value parses as an integer under the modelled
`Number` coercion (the claim's notion of a "usable" status value). -/
def parsesAsInt (v : HVal) : Bool :=
  match jsNumber v with
  | .int _ => true
  | .nan => false

/-- Status resolution of the H2 branch of `h2Request`
(adapter.ts:169-187): `rawStatus = h[":status"] || h["status"]`; if that
is `undefined`, re-read both keys through property descriptors; finally
`rawStatus !== undefined ? Number(rawStatus) : undefined`. -/
def statusResolve (h : List (String × HVal)) : Option JSNum :=
  let s1 := hLookup h ":status"
  let s2 := hLookup h "status"
  let rawStatus0 := if jsTruthyHVal s1 then s1 else s2
  let rawStatus :=
    match rawStatus0 with
    | some v => some v
    | none =>
      match s1 with
      | some v => some v
      | none => s2
  rawStatus.map jsNumber

/-- ProxyConfig (types.ts:3-8). -/
structure ProxyConfig where
  host : String
  port : Nat
  auth : Option String
  timeout : Option Nat
  deriving DecidableEq, Repr

/-- The timeout installed on the proxy CONNECT request by `getSocket`
(adapter.ts:380-382): a fixed 30000 ms, taking no input from the
ProxyConfig. -/
def connectPhaseTimeoutMs (_cfg : ProxyConfig) : Nat := 30000

/-- Message of the error with which the CONNECT attempt is destroyed on
expiry (adapter.ts:381). -/
def connectPhaseTimeoutMessage : String := "CONNECT request timed out"

/-- The request-phase timeout installed by `h2Request`
(adapter.ts:217-221): `if (proxy?.timeout) req.setTimeout(proxy.timeout,
...)` — applied only when a proxy config is present and its `timeout` is
truthy (nonzero). -/
def requestPhaseTimeoutMs (proxy : Option ProxyConfig) : Option Nat :=
  match proxy with
  | none => none
  | some cfg =>
    match cfg.timeout with
    | some t => if t ≠ 0 then some t else none
    | none => none

/-- Message of the error with which the request is destroyed on
request-phase timeout expiry (adapter.ts:219). -/
def requestPhaseTimeoutMessage : String := "Request timed out"

/-- The low-level response `json()` method (adapter.ts:193-201):
`JSON.parse` is a platform builtin, abstracted here as the `parse`
argument; its failure is wrapped in a new error whose message prefixes
the underlying one. -/
def lowLevelJson {α : Type} (parse : String → Except String α)
    (bodyText : String) : Except String α :=
  match parse bodyText with
  | .ok v => .ok v
  | .error e => .error ("JSON parsing failed: " ++ e)

/-- The low-level response `text()` method (adapter.ts:192): always
resolves with the decoded body text. -/
def lowLevelText (bodyText : String) : Except String String := .ok bodyText

/-- The fetch-adapter `json()` method (fetchAdapter.ts:97-100 and
155-158): `JSON.parse(await response.text())` with no try/catch, so a
parse failure propagates as the underlying syntax error, unwrapped. -/
def fetchLevelJson {α : Type} (parse : String → Except String α)
    (bodyText : String) : Except String α :=
  parse bodyText

/-- The fetch-adapter `text()` method (fetchAdapter.ts:88-95 and
146-153): resolves with the body text obtained from the low-level
response. -/
def fetchLevelText (bodyText : String) : Except String String := .ok bodyText

/-- True when an error message carries the low-level JSON wrapper
prefix. -/
def hasWrapPrefix (msg : String) : Bool :=
  List.isPrefixOf "JSON parsing failed: ".toList msg.toList

/-- Continuation-byte test for UTF-8 decoding. -/
def isContByte (b : Nat) : Bool := 0x80 ≤ b ∧ b ≤ 0xBF

/-- The Unicode replacement character U+FFFD. -/
def replacementChar : Char := Char.ofNat 0xFFFD

/-- Second-byte range check of a UTF-8 sequence led by `b`, per the
WHATWG decoder (rules out overlong encodings and surrogates). -/
def utf8SecondByteOk (b b2 : Nat) : Bool :=
  if b = 0xE0 then 0xA0 ≤ b2 ∧ b2 ≤ 0xBF
  else if b = 0xED then 0x80 ≤ b2 ∧ b2 ≤ 0x9F
  else if b = 0xF0 then 0x90 ≤ b2 ∧ b2 ≤ 0xBF
  else if b = 0xF4 then 0x80 ≤ b2 ∧ b2 ≤ 0x8F
  else isContByte b2

/-- Modelled from Node `Buffer.prototype.toString("utf8")` (a platform
builtin): WHATWG UTF-8 decoding with replacement — well-formed
sequences decode to their code point, and a malformed byte is replaced
by U+FFFD (on a malformed sequence this model consumes one byte and
continues, which agrees with the builtin on the inputs considered
here).  The fuel argument, instantiated with the list length, only
makes the recursion structural. -/
def utf8DecodeAux : Nat → List Nat → List Char
  | 0, _ => []
  | _ + 1, [] => []
  | fuel + 1, b :: rest =>
    if b < 0x80 then
      Char.ofNat b :: utf8DecodeAux fuel rest
    else if 0xC2 ≤ b ∧ b ≤ 0xDF then
      match rest with
      | b2 :: rest2 =>
        if isContByte b2 then
          Char.ofNat ((b - 0xC0) * 64 + (b2 - 0x80)) :: utf8DecodeAux fuel rest2
        else replacementChar :: utf8DecodeAux fuel rest
      | [] => [replacementChar]
    else if 0xE0 ≤ b ∧ b ≤ 0xEF then
      match rest with
      | b2 :: b3 :: rest3 =>
        if utf8SecondByteOk b b2 ∧ isContByte b3 then
          Char.ofNat ((b - 0xE0) * 4096 + (b2 - 0x80) * 64 + (b3 - 0x80)) ::
            utf8DecodeAux fuel rest3
        else replacementChar :: utf8DecodeAux fuel rest
      | _ => replacementChar :: utf8DecodeAux fuel rest
    else if 0xF0 ≤ b ∧ b ≤ 0xF4 then
      match rest with
      | b2 :: b3 :: b4 :: rest4 =>
        if utf8SecondByteOk b b2 ∧ isContByte b3 ∧ isContByte b4 then
          Char.ofNat ((b - 0xF0) * 262144 + (b2 - 0x80) * 4096 +
              (b3 - 0x80) * 64 + (b4 - 0x80)) :: utf8DecodeAux fuel rest4
        else replacementChar :: utf8DecodeAux fuel rest
      | _ => replacementChar :: utf8DecodeAux fuel rest
    else
      replacementChar :: utf8DecodeAux fuel rest

/-- UTF-8 decode with replacement of a byte list. -/
def utf8DecodeReplace (bs : List Nat) : List Char :=
  utf8DecodeAux bs.length bs

/-- The raw decompressed body surfaced by the low-level response
(adapter.ts:163 and 191): the bytes are preserved as-is. -/
def h2ResponseRawBody (decompressed : List Nat) : List Nat := decompressed

/-- The body text of the low-level response (adapter.ts:164):
`rawBody.toString("utf8")`. -/
def h2ResponseBodyText (decompressed : List Nat) : String :=
  String.mk (utf8DecodeReplace decompressed)

/-- The fetch-adapter `arrayBuffer()` method (fetchAdapter.ts:102-105
and 160-163): `new TextEncoder().encode(await response.text()).buffer` —
it re-encodes the UTF-8-decoded body text instead of returning the raw
decompressed bytes. -/
def fetchArrayBufferBytes (decompressed : List Nat) : List Nat :=
  strUtf8 (h2ResponseBodyText decompressed)

/-- Helper: `find?` over an append tries the left list first. -/
theorem find?_append_helper {α : Type} (p : α → Bool) (l₁ l₂ : List α) :
    List.find? p (l₁ ++ l₂) =
      ((List.find? p l₁).orElse (fun _ => List.find? p l₂)) := by
  induction l₁ with
  | nil => simp
  | cons a t ih =>
    by_cases h : p a <;> simp [List.find?_cons, h, ih]

/-- C1: on the HTTP/1.1 fallback path the request sent on the wire is not
built from the caller's inputs — at a concrete POST with path "/x", a
caller header and a body, the wire request is a bare `GET /` with an
empty header map and no body written, only the `req.end()` of the claim
actually happening. -/
theorem c1_http1_fallback_ignores_caller_inputs :
    http1FallbackWire "POST" ⟨"/x", "", "https:", "example.com", "example.com", ""⟩
        [("content-type", "application/json")] (JsBody.str "hi") =
      { method := "GET", path := "/", headers := [], bodyWritten := none,
        ended := true } ∧
    ("GET" : String) ≠ "POST" ∧ ("/" : String) ≠ "/x" := by
  exact ⟨rfl, by decide, by decide⟩

/-- C2: close-call counts per session variant and exit path.  On the
HTTP/1.1 fallback the request object is closed zero times on every exit
(every close site is guarded by `isHttp2Session`, which is false for a
`ClientRequest`), contradicting "closed exactly once on both paths";
on the H2 path every exit closes the session (the abort path calls
close twice, the second call a no-op on the already-closed session). -/
theorem c2_close_counts_by_path :
    (exitCloseScript ClientKind.clientRequest Exit.success initialCloseState).closeCalls = 0 ∧
    (exitCloseScript ClientKind.clientRequest Exit.transportError initialCloseState).closeCalls = 0 ∧
    (exitCloseScript ClientKind.clientRequest Exit.decompressionError initialCloseState).closeCalls = 0 ∧
    (exitCloseScript ClientKind.clientRequest Exit.abort initialCloseState).closeCalls = 0 ∧
    (exitCloseScript ClientKind.clientRequest Exit.success initialCloseState).closed = false ∧
    (exitCloseScript ClientKind.h2session Exit.success initialCloseState).closeCalls = 1 ∧
    (exitCloseScript ClientKind.h2session Exit.transportError initialCloseState).closed = true ∧
    (exitCloseScript ClientKind.h2session Exit.decompressionError initialCloseState).closed = true ∧
    (exitCloseScript ClientKind.h2session Exit.abort initialCloseState).closeCalls = 2 ∧
    (exitCloseScript ClientKind.h2session Exit.abort initialCloseState).closed = true := by
  decide

/-- C3 counterexample: with a caller header literally named ":method",
the value sent on the stream is the caller's "EVIL", not the computed
method "GET" — the object spread places caller headers last, so they
override the pseudo-headers. -/
theorem c3_counterexample_caller_overrides_pseudo :
    objLookup (h2HeaderObject "GET"
        ⟨"/", "", "https:", "example.com", "example.com", ""⟩
        [(":method", "EVIL")]) ":method" = some "EVIL" ∧
    (some "EVIL" : Option String) ≠ some "GET" := by
  decide

/-- C3 (amended): caller headers are spread after the computed
pseudo-headers, so for every header name the value sent is the caller's
when the caller supplies that name and the computed pseudo-header value
otherwise; in particular a caller header colliding with a pseudo-header
name does override it. -/
theorem c3_amended_caller_headers_override (method : String) (u : TargetURL)
    (headers : List (String × String)) (k : String) :
    objLookup (h2HeaderObject method u headers) k =
      ((objLookup headers k).orElse
        (fun _ => objLookup (computedPseudo method u) k)) := by
  unfold h2HeaderObject objLookup
  rw [List.reverse_append, find?_append_helper]
  rcases hfind : headers.reverse.find? (fun e => e.1 = k) with _ | v <;>
    simp [hfind, Option.orElse]

/-- C4: for every negotiated ALPN value the `secureConnect` handler
resolves with a session (never rejects), the session is the HTTP/2
variant exactly when the value is "h2", and the pseudo-header request
style is used exactly for that variant. -/
theorem c4_alpn_dispatch_never_rejects (alpn : Option String) :
    ∃ c, secureConnectResult alpn = Except.ok c ∧
      (usesPseudoHeaders c = true ↔ alpn = some "h2") ∧
      ∀ e, secureConnectResult alpn ≠ Except.error e := by
  by_cases h : alpn = some "h2"
  · refine ⟨ClientKind.h2session, ?_, ?_, ?_⟩ <;>
      simp [secureConnectResult, usesPseudoHeaders, isHttp2Session,
        hasRequestMethod, h]
  · refine ⟨ClientKind.clientRequest, ?_, ?_, ?_⟩ <;>
      simp [secureConnectResult, usesPseudoHeaders, isHttp2Session,
        hasRequestMethod, h]

/-- Witness for C4 at the concrete negotiated value "http/1.1": the
handler resolves with the HTTP/1.1 fallback variant. -/
theorem c4_witness :
    secureConnectResult (some "http/1.1") = Except.ok ClientKind.clientRequest := by
  obtain ⟨c, hc, hiff, -⟩ := c4_alpn_dispatch_never_rejects (some "http/1.1")
  cases c
  · exact absurd (hiff.mp rfl) (by decide)
  · exact hc

/-- C5 counterexample: with a ProxyConfig carrying `timeout = 5`, the
timeout installed on the CONNECT request is the fixed 30000 ms, not the
caller's 5 ms. -/
theorem c5_counterexample_connect_timeout_fixed :
    connectPhaseTimeoutMs
        { host := "proxy.example.com", port := 8080, auth := none,
          timeout := some 5 } = 30000 ∧
    (30000 : Nat) ≠ 5 := by
  decide

/-- C5 (amended): the CONNECT round-trip is always bounded by a fixed
30000 ms timeout, independent of ProxyConfig.timeout, and expiry
destroys the attempt with "CONNECT request timed out"; a nonzero
caller-supplied ProxyConfig.timeout instead bounds the request phase
after session establishment, whose expiry destroys the request with
"Request timed out". -/
theorem c5_amended_timeout_phases (cfg : ProxyConfig) (t : Nat)
    (ht : cfg.timeout = some t) (hnz : t ≠ 0) :
    connectPhaseTimeoutMs cfg = 30000 ∧
    requestPhaseTimeoutMs (some cfg) = some t ∧
    connectPhaseTimeoutMessage = "CONNECT request timed out" ∧
    requestPhaseTimeoutMessage = "Request timed out" := by
  refine ⟨rfl, ?_, rfl, rfl⟩
  simp [requestPhaseTimeoutMs, ht, hnz]

/-- Witness for C5 (amended) at a concrete config with timeout 5 ms. -/
theorem c5_amended_witness :
    connectPhaseTimeoutMs
        { host := "proxy.example.com", port := 8080, auth := none,
          timeout := some 5 } = 30000 ∧
    requestPhaseTimeoutMs
        (some { host := "proxy.example.com", port := 8080, auth := none,
                timeout := some 5 }) = some 5 ∧
    connectPhaseTimeoutMessage = "CONNECT request timed out" ∧
    requestPhaseTimeoutMessage = "Request timed out" :=
  c5_amended_timeout_phases
    { host := "proxy.example.com", port := 8080, auth := none,
      timeout := some 5 } 5 rfl (by decide)

/-- C6 counterexample: a response whose ":status" header is present but
unparseable ("abc" is not usable as an integer) resolves to NaN, not to
undefined. -/
theorem c6_counterexample_unparseable_status_is_nan :
    parsesAsInt (HVal.str "abc") = false ∧
    statusResolve [(":status", HVal.str "abc")] = some JSNum.nan ∧
    statusResolve [(":status", HVal.str "abc")] ≠ none := by
  decide

/-- C6 (amended): when the status is entirely absent — no ":status" and
no "status" key in the response headers — the resolved status is
undefined, not a numeric default; a present but unparseable value is
instead surfaced as its JS Number coercion (NaN, or 0 for the empty
string), as the counterexample shows. -/
theorem c6_amended_missing_status_undefined (h : List (String × HVal))
    (h1 : hLookup h ":status" = none) (h2 : hLookup h "status" = none) :
    statusResolve h = none := by
  simp [statusResolve, h1, h2, jsTruthyHVal]

/-- Witness for C6 (amended) on a header map with only a content-type. -/
theorem c6_amended_witness :
    statusResolve [("content-type", HVal.str "text/html")] = none :=
  c6_amended_missing_status_undefined [("content-type", HVal.str "text/html")]
    (by decide) (by decide)

/-- C7 counterexample: for auth "user:pa:ss", the first-colon split of
the claim yields the non-empty pair ("user", "pa:ss"), so the claim
demands a header encoding the full original credentials; the code
instead base64s only "user:pa", silently dropping ":ss". -/
theorem c7_counterexample_credentials_truncated :
    specFirstColonSplit "user:pa:ss" = some ("user", "pa:ss") ∧
    proxyAuthHeader "user:pa:ss" = Except.ok "Basic dXNlcjpwYQ==" ∧
    "Basic dXNlcjpwYQ==" ≠ "Basic " ++ base64Encode (strUtf8 "user:pa:ss") :=
  ⟨by decide, rfl, by decide⟩

/-- C7 (amended): the auth string is split on EVERY ":", not the first
only; the request fails with the auth-format error exactly when the
split's first two components are not both present and non-empty, and
otherwise the attached header is "Basic " followed by base64 of the
first two components joined by ":" — so credentials beyond a second
colon are dropped, and the full original credentials are encoded only
when the auth string contains a single colon. -/
theorem c7_amended_split_on_every_colon (auth : String) :
    (∀ u p rest, jsSplitColon auth = u :: p :: rest → u ≠ "" → p ≠ "" →
      proxyAuthHeader auth =
        Except.ok ("Basic " ++ base64Encode (strUtf8 (u ++ ":" ++ p)))) ∧
    (∀ u, jsSplitColon auth = [u] →
      proxyAuthHeader auth =
        Except.error "Invalid proxy authentication format. Expected \"username:password\"") ∧
    (∀ u p rest, jsSplitColon auth = u :: p :: rest → (u = "" ∨ p = "") →
      proxyAuthHeader auth =
        Except.error "Invalid proxy authentication format. Expected \"username:password\"") := by
  refine ⟨?_, ?_, ?_⟩
  · intro u p rest hsplit hu hp
    simp [proxyAuthHeader, hsplit, hu, hp]
  · intro u hsplit
    simp [proxyAuthHeader, hsplit]
  · intro u p rest hsplit hup
    rcases hup with h | h <;> simp [proxyAuthHeader, hsplit, h]

/-- Witness for C7 (amended) at the single-colon credentials
"user:pass", where the encoded credentials are the full original. -/
theorem c7_amended_witness :
    proxyAuthHeader "user:pass" =
      Except.ok ("Basic " ++ base64Encode (strUtf8 ("user" ++ ":" ++ "pass"))) :=
  (c7_amended_split_on_every_colon "user:pass").1 "user" "pass" []
    (by decide) (by decide) (by decide)

/-- C8 counterexample: at the public fetch-adapter interface, `json()`
on an unparseable body fails with the underlying parse error unwrapped —
its message does not carry the "JSON parsing failed: " wrapper — while
the low-level response object does wrap it. -/
theorem c8_counterexample_fetch_json_unwrapped :
    fetchLevelJson
        (fun _ => (Except.error "Unexpected token u in JSON at position 0" :
          Except String Unit)) "not json" =
      Except.error "Unexpected token u in JSON at position 0" ∧
    hasWrapPrefix "Unexpected token u in JSON at position 0" = false ∧
    lowLevelJson
        (fun _ => (Except.error "Unexpected token u in JSON at position 0" :
          Except String Unit)) "not json" =
      Except.error ("JSON parsing failed: " ++
        "Unexpected token u in JSON at position 0") :=
  ⟨rfl, by decide, rfl⟩

/-- C8 (amended): for every body on which JSON parsing fails, the
low-level response's `json()` fails with the wrapping "JSON parsing
failed: " error and its `text()` still succeeds with the body text; the
public fetch-adapter's `json()` also fails and its `text()` also
succeeds, but the fetch-adapter error is the underlying parse error
propagated unwrapped. -/
theorem c8_amended_wrap_only_low_level {α : Type}
    (parse : String → Except String α) (bodyText e : String)
    (hfail : parse bodyText = Except.error e) :
    lowLevelJson parse bodyText =
      Except.error ("JSON parsing failed: " ++ e) ∧
    lowLevelText bodyText = Except.ok bodyText ∧
    fetchLevelJson parse bodyText = Except.error e ∧
    fetchLevelText bodyText = Except.ok bodyText := by
  simp [lowLevelJson, lowLevelText, fetchLevelJson, fetchLevelText, hfail]

/-- Witness for C8 (amended) at a concrete failing parse. -/
theorem c8_amended_witness :
    lowLevelJson
        (fun _ => (Except.error "Unexpected end of JSON input" :
          Except String Unit)) "not json" =
      Except.error ("JSON parsing failed: " ++ "Unexpected end of JSON input") ∧
    lowLevelText "not json" = Except.ok "not json" ∧
    fetchLevelJson
        (fun _ => (Except.error "Unexpected end of JSON input" :
          Except String Unit)) "not json" =
      Except.error "Unexpected end of JSON input" ∧
    fetchLevelText "not json" = Except.ok "not json" :=
  c8_amended_wrap_only_low_level
    (fun _ => (Except.error "Unexpected end of JSON input" :
      Except String Unit)) "not json" "Unexpected end of JSON input" rfl

/-- C9: at the decompressed body [0xFF] — a single byte that is not
valid UTF-8 — the low-level response preserves the raw bytes, but the
fetch-adapter's `arrayBuffer()` returns the UTF-8 re-encoding of the
replacement-decoded text, [0xEF, 0xBF, 0xBD], not the raw byte. -/
theorem c9_arraybuffer_reencodes_text :
    h2ResponseRawBody [0xFF] = [0xFF] ∧
    fetchArrayBufferBytes [0xFF] = [0xEF, 0xBF, 0xBD] ∧
    fetchArrayBufferBytes [0xFF] ≠ h2ResponseRawBody [0xFF] := by
  decide

/-- C10: an empty-string body on the H2 path is falsy, so no data frame
is written before the stream is half-closed — the frames sent are
identical to those of the same request with an undefined body. -/
theorem c10_empty_string_body_writes_nothing :
    h2SendFrames (JsBody.str "") = h2SendFrames JsBody.undef ∧
    h2SendFrames (JsBody.str "") = [Frame.endStream] := by
  decide

end H2Alagut
